import Mathlib

/-!
Shallow embedding of the session/sandbox manager (`app/task_tracker.py`,
`app/container_manager.py`, `app/tasks.py`).

Modelling conventions:
- Timestamps (`datetime.utcnow()`) are `Int` seconds; each pure store
  operation takes the current time `now` explicitly, and the stateful
  layer reads it from the world.
- The Redis store is an association list keyed by the full Redis key
  (`"task_tracker:" ++ correlation_id`).  `WATCH/MULTI/EXEC` optimistic
  retry loops are modelled by their sequential semantics: a single atomic
  read-modify-write (the retry loop only re-runs the same body).
- Python truthiness of an optional string (`if not container_id`) is
  `optStrTruthy`: `None` and `""` are falsy.
- The Docker runtime (docker-py / the daemon) is an external collaborator,
  modelled as a container table plus an oracle of per-primitive outcomes
  (so that flakiness - containers vanishing mid-operation, transient API
  errors - can be injected).  An empty oracle means every call behaves
  according to the current runtime state.
-/

/-- `TaskState` dataclass from `app/task_tracker.py`. -/
structure TaskState where
  correlation_id : String
  first_seen : Int
  last_seen : Int
  has_sandbox : Bool := false
  running_task_count : Int := 0
  task_history : List String := []
  container_id : Option String := none
  container_created_at : Option Int := none
  last_task_completed_at : Option Int := none
  deriving Repr, DecidableEq

/-- Python truthiness of an `Optional[str]`: `None` and `""` are falsy. -/
def optStrTruthy : Option String → Bool
  | none => false
  | some s => s ≠ ""

/-- Association-list read (first binding wins). -/
def alistGet {β : Type} : List (String × β) → String → Option β
  | [], _ => none
  | (k, v) :: rest, key => if k = key then some v else alistGet rest key

/-- Association-list write: overwrite the binding if present, else append. -/
def alistSet {β : Type} : List (String × β) → String → β → List (String × β)
  | [], key, v => [(key, v)]
  | (k, w) :: rest, key, v =>
    if k = key then (key, v) :: rest else (k, w) :: alistSet rest key v

/-- Association-list delete. -/
def alistDel {β : Type} : List (String × β) → String → List (String × β)
  | [], _ => []
  | (k, w) :: rest, key =>
    if k = key then rest else (k, w) :: alistDel rest key

/-- The Redis database: full key to stored record. -/
abbrev Store := List (String × TaskState)

/-- `redis.get key`. -/
def storeGet (s : Store) (key : String) : Option TaskState := alistGet s key

/-- `redis.set key value`. -/
def storeSet (s : Store) (key : String) (v : TaskState) : Store :=
  alistSet s key v

/-- `redis.delete key`. -/
def storeDel (s : Store) (key : String) : Store := alistDel s key

/-- `TaskTracker._get_key`. -/
def getKey (correlation_id : String) : String :=
  "task_tracker:" ++ correlation_id

/-- `TaskTracker.register_task` (sequential semantics of the CAS loop).
Raising `ValueError` is the `.error` case. -/
def register_task (store : Store) (now : Int) (correlation_id : String)
    (task_name : Option String) : Except String (TaskState × Store) :=
  if correlation_id = "" then
    .error "correlation_id cannot be empty"
  else
    let key := getKey correlation_id
    match storeGet store key with
    | some st =>
      let st := { st with
        last_seen := now
        running_task_count := st.running_task_count + 1
        task_history :=
          if optStrTruthy task_name then
            st.task_history ++ [task_name.getD ""]
          else st.task_history }
      .ok (st, storeSet store key st)
    | none =>
      let st : TaskState := {
        correlation_id := correlation_id
        first_seen := now
        last_seen := now
        running_task_count := 1
        task_history :=
          if optStrTruthy task_name then [task_name.getD ""] else []
        container_id := none
        container_created_at := none }
      .ok (st, storeSet store key st)

/-- `TaskTracker.finish_task` (sequential semantics of the CAS loop). -/
def finish_task (store : Store) (now : Int) (correlation_id : String) :
    Option TaskState × Store :=
  if correlation_id = "" then (none, store)
  else
    let key := getKey correlation_id
    match storeGet store key with
    | some st =>
      let st := { st with
        running_task_count := max 0 (st.running_task_count - 1)
        last_seen := now
        last_task_completed_at := some now }
      (some st, storeSet store key st)
    | none => (none, store)

/-- `TaskTracker.set_sandbox_state`. -/
def set_sandbox_state (store : Store) (correlation_id : String)
    (has_sandbox : Bool) : Option TaskState × Store :=
  if correlation_id = "" then (none, store)
  else
    let key := getKey correlation_id
    match storeGet store key with
    | some st =>
      let st := { st with has_sandbox := has_sandbox }
      (some st, storeSet store key st)
    | none => (none, store)

/-- `TaskTracker.get_state` (read-only). -/
def get_state (store : Store) (correlation_id : String) : Option TaskState :=
  if correlation_id = "" then none
  else storeGet store (getKey correlation_id)

/-- `TaskTracker.set_container_id`.  The guard
`if not correlation_id or not container_id` makes the call a no-op
returning `None` when the given container id is `None` or `""`. -/
def set_container_id (store : Store) (now : Int) (correlation_id : String)
    (container_id : Option String) : Option TaskState × Store :=
  if correlation_id = "" ∨ ¬ optStrTruthy container_id then (none, store)
  else
    let key := getKey correlation_id
    match storeGet store key with
    | some st =>
      let st := { st with
        container_id := container_id
        container_created_at := some now }
      (some st, storeSet store key st)
    | none =>
      let st : TaskState := {
        correlation_id := correlation_id
        first_seen := now
        last_seen := now
        container_id := container_id
        container_created_at := some now }
      (some st, storeSet store key st)

/-- `TaskTracker.get_container_id` (read-only). -/
def get_container_id (store : Store) (correlation_id : String) :
    Option String :=
  if correlation_id = "" then none
  else
    match get_state store correlation_id with
    | some st => st.container_id
    | none => none

/-! ## The container runtime (external collaborator, docker-py)

The runtime is modelled as a table of containers (id to status string) and
a set of image tags, together with an oracle that can force any single
API call to misbehave (vanished container, transient API error, injected
command result).  The Python exception hierarchy used by the code is
`ImageNotFound < NotFound < APIError < Exception` plus generic
exceptions such as `RuntimeError`. -/

/-- A raised Python exception, classified by the classes the code matches. -/
inductive DockerErr where
  | notFound (msg : String)
  | imageNotFound (msg : String)
  | apiError (msg : String)
  | other (msg : String)
  deriving Repr, DecidableEq

/-- Membership in `docker.errors.NotFound` (`ImageNotFound` is a subclass). -/
def DockerErr.isNotFound : DockerErr → Bool
  | .notFound _ => true
  | .imageNotFound _ => true
  | _ => false

/-- Membership in `docker.errors.ImageNotFound`. -/
def DockerErr.isImageNotFound : DockerErr → Bool
  | .imageNotFound _ => true
  | _ => false

/-- Membership in `docker.errors.APIError` (`NotFound` is a subclass). -/
def DockerErr.isAPIError : DockerErr → Bool
  | .notFound _ => true
  | .imageNotFound _ => true
  | .apiError _ => true
  | _ => false

/-- Membership in `Exception`: everything. -/
def DockerErr.isException : DockerErr → Bool := fun _ => true

/-- `str(e)`. -/
def DockerErr.msg : DockerErr → String
  | .notFound m => m
  | .imageNotFound m => m
  | .apiError m => m
  | .other m => m

/-- Behaviour injected for one runtime API call.  `ok` (and the default
when the oracle is exhausted) follows the current runtime state; `noop`
makes the call succeed without effect (e.g. a start after which the
container still is not running); `vanish` deletes the subject container
first, modelling a concurrent removal observed mid-operation; `execRes`
supplies the exit code and raw output of a command execution. -/
inductive OrcOutcome where
  | ok
  | noop
  | vanish
  | execRes (exit_code : Int) (output : Option String)
  | raiseNotFound (msg : String)
  | raiseImageNotFound (msg : String)
  | raiseAPIError (msg : String)
  | raiseErr (msg : String)
  deriving Repr, DecidableEq

/-- Runtime-side state: containers (id to status) and images. -/
structure DockerSt where
  containers : List (String × String)
  images : List String
  nextId : Nat
  deriving Repr, DecidableEq

/-- The whole world: Redis store, runtime state, fault oracle, clock, and
whether the Docker daemon was reachable at startup. -/
structure World where
  store : Store
  docker : DockerSt
  oracle : List OrcOutcome
  now : Int
  dockerAvailable : Bool

/-- Stateful, exception-throwing computations over the world. -/
def M (α : Type) : Type := World → Except DockerErr α × World

instance : Monad M where
  pure a := fun w => (.ok a, w)
  bind x f := fun w =>
    match x w with
    | (.ok a, w₁) => f a w₁
    | (.error e, w₁) => (.error e, w₁)

/-- Raise an exception. -/
def throwD {α : Type} (e : DockerErr) : M α := fun w => (.error e, w)

/-- Read the world. -/
def getW : M World := fun w => (.ok w, w)

/-- First `except` clause whose class matches the raised exception. -/
def firstClause {α : Type} (e : DockerErr) :
    List ((DockerErr → Bool) × (DockerErr → M α)) →
      Option (DockerErr → M α)
  | [] => none
  | (p, h) :: rest => if p e then some (fun e => h e) else firstClause e rest

/-- Python `try/except` with ordered clauses.  An exception raised inside
a handler escapes (it is not caught by a sibling clause), while an
exception raised inside a nested `try` that sits lexically inside this
body is caught here - both match Python semantics because handlers run
outside the body argument. -/
def tryExcept {α : Type} (body : M α)
    (clauses : List ((DockerErr → Bool) × (DockerErr → M α))) : M α :=
  fun w =>
    match body w with
    | (.ok a, w₁) => (.ok a, w₁)
    | (.error e, w₁) =>
      match firstClause e clauses with
      | some h => h e w₁
      | none => (.error e, w₁)

/-- Pop the next oracle entry; an exhausted oracle behaves like `ok`. -/
def popOrc : M OrcOutcome := fun w =>
  match w.oracle with
  | [] => (.ok .ok, w)
  | o :: rest => (.ok o, { w with oracle := rest })

/-- Delete a container from the runtime state. -/
def dropContainer (cid : String) : M Unit := fun w =>
  (.ok (), { w with docker :=
    { w.docker with containers := alistDel w.docker.containers cid } })

/-- A container object as the code sees it: identity plus the status
snapshot taken when it was (re)fetched. -/
structure Container where
  id : String
  status : String
  deriving Repr, DecidableEq

/-- `client.containers.get(cid)` / `container.reload()`. -/
def containers_get (cid : String) : M Container := do
  let o ← popOrc
  match o with
  | .raiseNotFound m => throwD (.notFound m)
  | .raiseImageNotFound m => throwD (.imageNotFound m)
  | .raiseAPIError m => throwD (.apiError m)
  | .raiseErr m => throwD (.other m)
  | .vanish => do
    dropContainer cid
    throwD (.notFound ("No such container: " ++ cid))
  | _ => (fun w =>
      match alistGet w.docker.containers cid with
      | some st => (.ok ⟨cid, st⟩, w)
      | none => (.error (.notFound ("No such container: " ++ cid)), w))

/-- `container.start()`. -/
def container_start (c : Container) : M Unit := do
  let o ← popOrc
  match o with
  | .raiseNotFound m => throwD (.notFound m)
  | .raiseImageNotFound m => throwD (.imageNotFound m)
  | .raiseAPIError m => throwD (.apiError m)
  | .raiseErr m => throwD (.other m)
  | .vanish => do
    dropContainer c.id
    throwD (.notFound ("No such container: " ++ c.id))
  | .noop => pure ()
  | _ => (fun w =>
      match alistGet w.docker.containers c.id with
      | some _ =>
        (.ok (), { w with docker :=
          { w.docker with
            containers := alistSet w.docker.containers c.id "running" } })
      | none => (.error (.notFound ("No such container: " ++ c.id)), w))

/-- `container.stop()`. -/
def container_stop (c : Container) : M Unit := do
  let o ← popOrc
  match o with
  | .raiseNotFound m => throwD (.notFound m)
  | .raiseImageNotFound m => throwD (.imageNotFound m)
  | .raiseAPIError m => throwD (.apiError m)
  | .raiseErr m => throwD (.other m)
  | .vanish => do
    dropContainer c.id
    throwD (.notFound ("No such container: " ++ c.id))
  | .noop => pure ()
  | _ => (fun w =>
      match alistGet w.docker.containers c.id with
      | some _ =>
        (.ok (), { w with docker :=
          { w.docker with
            containers := alistSet w.docker.containers c.id "exited" } })
      | none => (.error (.notFound ("No such container: " ++ c.id)), w))

/-- `container.remove(force=True)`. -/
def container_remove (c : Container) : M Unit := do
  let o ← popOrc
  match o with
  | .raiseNotFound m => throwD (.notFound m)
  | .raiseImageNotFound m => throwD (.imageNotFound m)
  | .raiseAPIError m => throwD (.apiError m)
  | .raiseErr m => throwD (.other m)
  | .noop => pure ()
  | _ => (fun w =>
      match alistGet w.docker.containers c.id with
      | some _ =>
        (.ok (), { w with docker :=
          { w.docker with
            containers := alistDel w.docker.containers c.id } })
      | none => (.error (.notFound ("No such container: " ++ c.id)), w))

/-- `container.exec_run(["bash", "-c", command])`: the command result
comes from the oracle (the command body is external to the model). -/
def container_exec_run (c : Container) (command : String) :
    M (Int × Option String) := do
  let _ := command
  let o ← popOrc
  match o with
  | .raiseNotFound m => throwD (.notFound m)
  | .raiseImageNotFound m => throwD (.imageNotFound m)
  | .raiseAPIError m => throwD (.apiError m)
  | .raiseErr m => throwD (.other m)
  | .vanish => do
    dropContainer c.id
    throwD (.notFound ("No such container: " ++ c.id))
  | .execRes code out => (fun w =>
      match alistGet w.docker.containers c.id with
      | some _ => (.ok (code, out), w)
      | none => (.error (.notFound ("No such container: " ++ c.id)), w))
  | _ => (fun w =>
      match alistGet w.docker.containers c.id with
      | some _ => (.ok ((0 : Int), none), w)
      | none => (.error (.notFound ("No such container: " ++ c.id)), w))

/-- `client.images.get(tag)`. -/
def images_get (tag : String) : M Unit := do
  let o ← popOrc
  match o with
  | .raiseNotFound m => throwD (.notFound m)
  | .raiseImageNotFound m => throwD (.imageNotFound m)
  | .raiseAPIError m => throwD (.apiError m)
  | .raiseErr m => throwD (.other m)
  | _ => fun w =>
    if w.docker.images.contains tag then (.ok (), w)
    else (.error (.imageNotFound ("No such image: " ++ tag)), w)

/-- `client.images.build(path=".", tag=tag, dockerfile=...)`. -/
def images_build (tag : String) : M Unit := do
  let o ← popOrc
  match o with
  | .raiseNotFound m => throwD (.notFound m)
  | .raiseImageNotFound m => throwD (.imageNotFound m)
  | .raiseAPIError m => throwD (.apiError m)
  | .raiseErr m => throwD (.other m)
  | _ => fun w =>
    (.ok (), { w with docker :=
      { w.docker with images := tag :: w.docker.images } })

/-- Id the runtime assigns to a freshly created container. -/
def freshContainerId (n : Nat) : String := "sandbox-" ++ toString n

/-- `client.containers.run(image_tag, tty=True, detach=True, ...)` with
the fixed provisioning envelope (4 GiB, CPU quota, capabilities dropped -
runtime configuration, not part of the state the claims inspect).  The
new container is running. -/
def containers_run : M Container := do
  let o ← popOrc
  match o with
  | .raiseNotFound m => throwD (.notFound m)
  | .raiseImageNotFound m => throwD (.imageNotFound m)
  | .raiseAPIError m => throwD (.apiError m)
  | .raiseErr m => throwD (.other m)
  | _ => fun w =>
    let cid := freshContainerId w.docker.nextId
    (.ok ⟨cid, "running"⟩,
     { w with docker :=
       { containers := alistSet w.docker.containers cid "running"
         images := w.docker.images
         nextId := w.docker.nextId + 1 } })

/-! ## `app/container_manager.py`: ContainerManager -/

/-- `self.image_tag`. -/
def image_tag : String := "sandbox"

/-- `ContainerManager._check_docker_available`: raises `RuntimeError` when
the daemon was unreachable at startup. -/
def check_docker_available : M Unit := fun w =>
  if w.dockerAvailable then (.ok (), w)
  else
    (.error (.other
      "Docker is not available. Container functionality is disabled."), w)

/-- `task_tracker.get_container_id` lifted into the world. -/
def tt_get_container_id (correlation_id : String) : M (Option String) :=
  fun w => (.ok (get_container_id w.store correlation_id), w)

/-- `task_tracker.set_container_id` lifted into the world. -/
def tt_set_container_id (correlation_id : String)
    (container_id : Option String) : M (Option TaskState) :=
  fun w =>
    let r := set_container_id w.store w.now correlation_id container_id
    (.ok r.1, { w with store := r.2 })

/-- `ContainerManager.build_image` (the `except` clause logs and
re-raises, so it is an identity handler). -/
def build_image : M Unit := do
  check_docker_available
  tryExcept (images_build image_tag)
    [(DockerErr.isException, fun e => throwD e)]

/-- `str.__contains__` for the `"404" in str(e)` checks. -/
def strContains (s pat : String) : Bool :=
  (List.range (s.length + 1)).any
    (fun i => List.isPrefixOf pat.data (s.data.drop i))

/-- `ContainerManager.create_container`.  Python early `return`s inside
the reuse `try` are modelled by the `reused` option: `some id` means a
`return id` happened, `none` means control fell through to creation
(which only happens when there was no stored id or the stored id raised
`NotFound`). -/
def create_container (correlation_id : String) : M String := do
  check_docker_available
  let existing ← tt_get_container_id correlation_id
  let reused ←
    if optStrTruthy existing then
      let ex := existing.getD ""
      tryExcept
        (do
          let c ← containers_get ex
          if c.status = "running" then
            pure (some ex)
          else do
            container_start c
            pure (some ex))
        [(DockerErr.isNotFound, fun _ => pure none),
         (DockerErr.isException, fun e => throwD e)]
    else pure none
  match reused with
  | some cid => pure cid
  | none => do
    tryExcept (images_get image_tag)
      [(DockerErr.isImageNotFound, fun _ => build_image),
       (DockerErr.isException, fun e => throwD e)]
    tryExcept
      (do
        let c ← containers_run
        let _ ← tt_set_container_id correlation_id (some c.id)
        pure c.id)
      [(DockerErr.isException, fun e => throwD e)]

/-- `ContainerManager.get_container`. -/
def get_container (correlation_id : String) : M (Option Container) := do
  check_docker_available
  let container_id ← tt_get_container_id correlation_id
  if ¬ optStrTruthy container_id then
    pure none
  else
    let cid := container_id.getD ""
    tryExcept
      (do
        let c ← containers_get cid
        pure (some c))
      [(DockerErr.isNotFound, fun _ => do
          let _ ← tt_set_container_id correlation_id none
          pure none),
       (DockerErr.isAPIError, fun e => do
          if strContains e.msg "404" ∨ strContains e.msg "No such container"
          then do
            let _ ← tt_set_container_id correlation_id none
            pure none
          else
            pure none),
       (DockerErr.isException, fun _ => pure none)]

/-- `ContainerManager.ensure_container`: the reconciliation state
machine.  Nesting of `try` blocks mirrors the source exactly, so an
exception raised by an inner handler is caught by the outer clauses,
as in Python. -/
def ensure_container (correlation_id : String) : M Container := do
  check_docker_available
  let copt ← get_container correlation_id
  match copt with
  | some container =>
    tryExcept
      (do
        let container ← containers_get container.id
        if container.status ≠ "running" then
          tryExcept
            (do
              container_start container
              let container ← containers_get container.id
              if container.status ≠ "running" then do
                tryExcept (container_remove container)
                  [(DockerErr.isException, fun _ => pure ())]
                let container_id ← create_container correlation_id
                containers_get container_id
              else
                pure container)
            [(DockerErr.isException, fun _ => do
                tryExcept (container_remove container)
                  [(DockerErr.isException, fun _ => pure ())]
                let container_id ← create_container correlation_id
                containers_get container_id)]
        else
          pure container)
      [(DockerErr.isNotFound, fun _ => do
          let container_id ← create_container correlation_id
          containers_get container_id),
       (DockerErr.isException, fun _ => do
          let container_id ← create_container correlation_id
          containers_get container_id)]
  | none => do
    let container_id ← create_container correlation_id
    containers_get container_id

/-- The result envelope of `ContainerManager.exec_command`. -/
structure ExecResult where
  exit_code : Int
  output : String
  container_id : Option String
  correlation_id : String
  command : String
  success : Bool
  deriving Repr, DecidableEq

/-- `result.output.decode("utf-8") if result.output else ""`. -/
def decodeOutput : Option String → String
  | none => ""
  | some s => s

/-- The `try` body of `ContainerManager.exec_command`: ensure, double
check the status (starting or recreating if needed), run the command,
build the envelope. -/
def exec_attempt (correlation_id command : String) : M ExecResult := do
  let container ← ensure_container correlation_id
  let container ← containers_get container.id
  let container ←
    if container.status ≠ "running" then
      tryExcept
        (do
          container_start container
          containers_get container.id)
        [(DockerErr.isException, fun _ => do
            let container_id ← create_container correlation_id
            containers_get container_id)]
    else
      pure container
  let result ← container_exec_run container command
  pure {
    exit_code := result.1
    output := decodeOutput result.2
    container_id := some container.id
    correlation_id := correlation_id
    command := command
    success := result.1 == 0 }

/-- The `except docker.errors.NotFound` clause of `exec_command`:
recreate the container once and retry the command once.  Exceptions
raised here propagate out of `exec_command`. -/
def exec_notfound_handler (correlation_id command : String) :
    M ExecResult := do
  let container_id ← create_container correlation_id
  let container ← containers_get container_id
  let result ← container_exec_run container command
  pure {
    exit_code := result.1
    output := decodeOutput result.2
    container_id := some container.id
    correlation_id := correlation_id
    command := command
    success := result.1 == 0 }

/-- The `except Exception` clause of `exec_command`: a structured
failure envelope built from the stored container id. -/
def exec_error_envelope (correlation_id command : String) (e : DockerErr) :
    M ExecResult := do
  let stored ← tt_get_container_id correlation_id
  pure {
    exit_code := 1
    output := "Error executing command: " ++ e.msg
    container_id := stored
    correlation_id := correlation_id
    command := command
    success := false }

/-- `ContainerManager.exec_command`. -/
def exec_command (correlation_id command : String) : M ExecResult := do
  check_docker_available
  tryExcept (exec_attempt correlation_id command)
    [(DockerErr.isNotFound, fun _ =>
        exec_notfound_handler correlation_id command),
     (DockerErr.isException, fun e =>
        exec_error_envelope correlation_id command e)]

/-- `ContainerManager.stop_container`. -/
def stop_container (correlation_id : String) : M Bool := do
  check_docker_available
  let copt ← get_container correlation_id
  match copt with
  | none => pure false
  | some container =>
    tryExcept
      (do
        container_stop container
        pure true)
      [(DockerErr.isException, fun _ => pure false)]

/-- `ContainerManager.remove_container`. -/
def remove_container (correlation_id : String) : M Bool := do
  check_docker_available
  let copt ← get_container correlation_id
  match copt with
  | none => pure false
  | some container =>
    tryExcept
      (do
        container_stop container
        container_remove container
        pure true)
      [(DockerErr.isException, fun _ => pure false)]

/-! ## `app/task_tracker.py`: the cleanup loops -/

/-- `redis.get key` lifted into the world. -/
def readKey (key : String) : M (Option TaskState) :=
  fun w => (.ok (storeGet w.store key), w)

/-- `redis.delete key` lifted into the world. -/
def delKey (key : String) : M Unit :=
  fun w => (.ok (), { w with store := storeDel w.store key })

/-- `datetime.utcnow()` read from the world clock. -/
def getNow : M Int := fun w => (.ok w.now, w)

/-- Keys matched by `scan_iter("task_tracker:*")` on a store snapshot. -/
def scanKeys (store : Store) : List String :=
  (store.map Prod.fst).filter
    (fun k => List.isPrefixOf "task_tracker:".data k.data)

/-- One iteration of the `TaskTracker.cleanup_old_tasks` loop. -/
def cleanup_old_step (max_age_hours : Int) (key : String) : M Unit := do
  let data ← readKey key
  match data with
  | none => pure ()
  | some state => do
    let now ← getNow
    let last_activity := state.last_task_completed_at.getD state.last_seen
    if now - last_activity > max_age_hours * 3600
        ∧ state.running_task_count = 0 then do
      if optStrTruthy state.container_id then
        tryExcept
          (do
            let _ ← remove_container state.correlation_id
            pure ())
          [(DockerErr.isException, fun _ => pure ())]
      else
        pure ()
      delKey key
    else
      pure ()

/-- The `scan_iter` loop of `cleanup_old_tasks`. -/
def cleanup_old_loop (max_age_hours : Int) : List String → M Unit
  | [] => pure ()
  | key :: rest => do
    cleanup_old_step max_age_hours key
    cleanup_old_loop max_age_hours rest

/-- `TaskTracker.cleanup_old_tasks(max_age_hours)`: delete records idle
beyond the age with no running tasks, removing any attached container
first. -/
def cleanup_old_tasks (max_age_hours : Int) : M Unit := do
  let w ← getW
  cleanup_old_loop max_age_hours (scanKeys w.store)

/-- One iteration of the `TaskTracker.cleanup_inactive_containers` loop,
threading the accumulated list of evicted correlation ids. -/
def cleanup_inactive_step (inactivity_seconds : Int) (key : String)
    (acc : List String) : M (List String) := do
  let data ← readKey key
  match data with
  | none => pure acc
  | some state =>
    if optStrTruthy state.container_id ∧ state.running_task_count = 0 then do
      let now ← getNow
      let last_activity := state.last_task_completed_at.getD state.last_seen
      if now - last_activity > inactivity_seconds then
        tryExcept
          (do
            let _ ← stop_container state.correlation_id
            let _ ← remove_container state.correlation_id
            pure (acc ++ [state.correlation_id]))
          [(DockerErr.isException, fun _ => pure acc)]
      else
        pure acc
    else
      pure acc

/-- The `scan_iter` loop of `cleanup_inactive_containers`. -/
def cleanup_inactive_loop (inactivity_seconds : Int) :
    List String → List String → M (List String)
  | acc, [] => pure acc
  | acc, key :: rest => do
    let acc ← cleanup_inactive_step inactivity_seconds key acc
    cleanup_inactive_loop inactivity_seconds acc rest

/-- `TaskTracker.cleanup_inactive_containers(inactivity_hours)`, taking
the already-converted threshold (`int(inactivity_hours * 3600)`) in
seconds.  Returns the evicted correlation ids. -/
def cleanup_inactive_containers (inactivity_seconds : Int) :
    M (List String) := do
  let w ← getW
  cleanup_inactive_loop inactivity_seconds [] (scanKeys w.store)

/-! ## Basic lemmas about the store and the monad -/

theorem alistGet_set_self {β : Type} (l : List (String × β)) (k : String)
    (v : β) : alistGet (alistSet l k v) k = some v := by
  induction l with
  | nil => simp [alistSet, alistGet]
  | cons p rest ih =>
    obtain ⟨a, b⟩ := p
    by_cases h : a = k <;> simp [alistSet, alistGet, h, ih]

theorem alistGet_set_ne {β : Type} (l : List (String × β)) (k k' : String)
    (v : β) (h : k' ≠ k) : alistGet (alistSet l k v) k' = alistGet l k' := by
  induction l with
  | nil => simp [alistSet, alistGet, Ne.symm h]
  | cons p rest ih =>
    obtain ⟨a, b⟩ := p
    by_cases ha : a = k
    · subst ha
      simp [alistSet, alistGet, Ne.symm h]
    · simp [alistSet, alistGet, ha, ih]

theorem alistGet_eq_none_of_not_mem {β : Type} (l : List (String × β))
    (k : String) (h : k ∉ l.map Prod.fst) : alistGet l k = none := by
  induction l with
  | nil => rfl
  | cons p rest ih =>
    obtain ⟨a, b⟩ := p
    simp only [List.map_cons, List.mem_cons] at h
    push_neg at h
    have hak : a ≠ k := fun hx => h.1 hx.symm
    simp [alistGet, hak, ih h.2]

theorem alistGet_del {β : Type} (l : List (String × β)) (k k' : String)
    (hnd : (l.map Prod.fst).Nodup) :
    alistGet (alistDel l k) k' = if k' = k then none else alistGet l k' := by
  induction l with
  | nil => simp [alistDel, alistGet]
  | cons p rest ih =>
    obtain ⟨a, b⟩ := p
    simp only [List.map_cons, List.nodup_cons] at hnd
    by_cases ha : a = k
    · subst ha
      by_cases hk : k' = a
      · subst hk
        simp [alistDel, alistGet_eq_none_of_not_mem rest k' hnd.1]
      · simp [alistDel, alistGet, hk, Ne.symm hk]
    · by_cases hk : k' = a
      · subst hk
        simp [alistDel, alistGet, ha, fun hx : k' = k => ha (hx ▸ rfl)]
      · simp [alistDel, alistGet, ha, Ne.symm hk, ih hnd.2]

/-- `set_container_id` with a falsy (`None`/empty) container id is a
no-op returning `None`. -/
theorem set_container_id_falsy (store : Store) (now : Int) (cid : String)
    (container_id : Option String) (h : optStrTruthy container_id = false) :
    set_container_id store now cid container_id = (none, store) := by
  simp [set_container_id, h]

/-- Running `pure` on a world. -/
theorem M_pure_run {α : Type} (a : α) (w : World) :
    (pure a : M α) w = (.ok a, w) := rfl

/-- Running a `bind` on a world. -/
theorem M_bind_run {α β : Type} (x : M α) (f : α → M β) (w : World) :
    (x >>= f) w =
      match x w with
      | (.ok a, w₁) => f a w₁
      | (.error e, w₁) => (.error e, w₁) := rfl

/-- A computation that never writes the Redis store and never touches
the clock. -/
def PreservesStore {α : Type} (m : M α) : Prop :=
  ∀ w : World, ((m w).2).store = w.store ∧ ((m w).2).now = w.now

theorem pres_pure {α : Type} (a : α) :
    PreservesStore (pure a : M α) := fun _ => ⟨rfl, rfl⟩

theorem pres_throwD {α : Type} (e : DockerErr) :
    PreservesStore (throwD e : M α) := fun _ => ⟨rfl, rfl⟩

theorem pres_bind {α β : Type} {x : M α} {f : α → M β}
    (hx : PreservesStore x) (hf : ∀ a, PreservesStore (f a)) :
    PreservesStore (x >>= f) := by
  intro w
  rw [M_bind_run]
  rcases hxw : x w with ⟨r, w₁⟩
  have h1 : w₁.store = w.store ∧ w₁.now = w.now := by
    have := hx w
    rw [hxw] at this
    exact this
  cases r with
  | ok a =>
    have h2 := hf a w₁
    exact ⟨h2.1.trans h1.1, h2.2.trans h1.2⟩
  | error e => simpa using h1

theorem pres_tryExcept {α : Type} {body : M α}
    {clauses : List ((DockerErr → Bool) × (DockerErr → M α))}
    (hb : PreservesStore body)
    (hc : ∀ c ∈ clauses, ∀ e, PreservesStore (c.2 e)) :
    PreservesStore (tryExcept body clauses) := by
  intro w
  unfold tryExcept
  rcases hbw : body w with ⟨r, w₁⟩
  have h1 : w₁.store = w.store ∧ w₁.now = w.now := by
    have := hb w
    rw [hbw] at this
    exact this
  cases r with
  | ok a => simpa using h1
  | error e =>
    simp only []
    induction clauses with
    | nil => simpa [firstClause] using h1
    | cons c rest ih =>
      by_cases hp : c.1 e
      · obtain ⟨p, h⟩ := c
        simp only [firstClause] at hp ⊢
        rw [if_pos hp]
        have h2 := hc (p, h) (List.mem_cons_self _ _) e w₁
        exact ⟨h2.1.trans h1.1, h2.2.trans h1.2⟩
      · obtain ⟨p, h⟩ := c
        simp only [firstClause] at hp ⊢
        rw [if_neg hp]
        exact ih (fun c hcc => hc c (List.mem_cons_of_mem _ hcc))

theorem pres_popOrc : PreservesStore popOrc := by
  intro w
  unfold popOrc
  cases w.oracle <;> exact ⟨rfl, rfl⟩

theorem pres_dropContainer (cid : String) :
    PreservesStore (dropContainer cid) := fun _ => ⟨rfl, rfl⟩

theorem pres_getW : PreservesStore getW := fun _ => ⟨rfl, rfl⟩

theorem pres_getNow : PreservesStore getNow := fun _ => ⟨rfl, rfl⟩

theorem pres_readKey (key : String) : PreservesStore (readKey key) :=
  fun _ => ⟨rfl, rfl⟩

theorem pres_check : PreservesStore check_docker_available := by
  intro w
  unfold check_docker_available
  by_cases h : w.dockerAvailable <;> simp [h]

theorem pres_tt_get (cid : String) :
    PreservesStore (tt_get_container_id cid) := fun _ => ⟨rfl, rfl⟩

theorem pres_tt_set_none (cid : String) :
    PreservesStore (tt_set_container_id cid none) := by
  intro w
  constructor
  · show (set_container_id w.store w.now cid none).2 = w.store
    rw [set_container_id_falsy w.store w.now cid none rfl]
  · rfl

theorem clauses_pres_cons {α : Type} {p : DockerErr → Bool}
    {h : DockerErr → M α}
    {rest : List ((DockerErr → Bool) × (DockerErr → M α))}
    (h1 : ∀ e, PreservesStore (h e))
    (h2 : ∀ c ∈ rest, ∀ e, PreservesStore (c.2 e)) :
    ∀ c ∈ ((p, h) :: rest : List _), ∀ e, PreservesStore (c.2 e) := by
  intro c hcm e
  rcases List.mem_cons.mp hcm with rfl | hm
  · exact h1 e
  · exact h2 c hm e

theorem clauses_pres_nil {α : Type} :
    ∀ c ∈ ([] : List ((DockerErr → Bool) × (DockerErr → M α))),
      ∀ e, PreservesStore (c.2 e) := by
  intro c hcm
  cases hcm

theorem pres_containers_get (cid : String) :
    PreservesStore (containers_get cid) := by
  unfold containers_get
  apply pres_bind pres_popOrc
  intro o
  cases o
  all_goals first
    | exact pres_throwD _
    | (apply pres_bind (pres_dropContainer _); intro _; exact pres_throwD _)
    | (intro w; rcases h : alistGet w.docker.containers cid with _ | st <;>
        simp [h])

theorem pres_container_start (c : Container) :
    PreservesStore (container_start c) := by
  unfold container_start
  apply pres_bind pres_popOrc
  intro o
  cases o
  all_goals first
    | exact pres_throwD _
    | exact pres_pure _
    | (apply pres_bind (pres_dropContainer _); intro _; exact pres_throwD _)
    | (intro w; rcases h : alistGet w.docker.containers c.id with _ | st <;>
        simp [h])

theorem pres_container_stop (c : Container) :
    PreservesStore (container_stop c) := by
  unfold container_stop
  apply pres_bind pres_popOrc
  intro o
  cases o
  all_goals first
    | exact pres_throwD _
    | exact pres_pure _
    | (apply pres_bind (pres_dropContainer _); intro _; exact pres_throwD _)
    | (intro w; rcases h : alistGet w.docker.containers c.id with _ | st <;>
        simp [h])

theorem pres_container_remove (c : Container) :
    PreservesStore (container_remove c) := by
  unfold container_remove
  apply pres_bind pres_popOrc
  intro o
  cases o
  all_goals first
    | exact pres_throwD _
    | exact pres_pure _
    | (intro w; rcases h : alistGet w.docker.containers c.id with _ | st <;>
        simp [h])

theorem pres_container_exec_run (c : Container) (command : String) :
    PreservesStore (container_exec_run c command) := by
  unfold container_exec_run
  apply pres_bind pres_popOrc
  intro o
  cases o
  all_goals first
    | exact pres_throwD _
    | exact pres_pure _
    | (apply pres_bind (pres_dropContainer _); intro _; exact pres_throwD _)
    | (intro w; rcases h : alistGet w.docker.containers c.id with _ | st <;>
        simp [h])

theorem pres_get_container (cid : String) :
    PreservesStore (get_container cid) := by
  unfold get_container
  apply pres_bind pres_check
  intro _
  apply pres_bind (pres_tt_get _)
  intro container_id
  by_cases h : ¬ optStrTruthy container_id = true
  · rw [if_pos h]
    exact pres_pure _
  · rw [if_neg h]
    apply pres_tryExcept
    · apply pres_bind (pres_containers_get _)
      intro _
      exact pres_pure _
    · apply clauses_pres_cons
      · intro _
        apply pres_bind (pres_tt_set_none _)
        intro _
        exact pres_pure _
      apply clauses_pres_cons
      · intro e
        by_cases hm :
            strContains e.msg "404" ∨ strContains e.msg "No such container"
        · rw [if_pos hm]
          apply pres_bind (pres_tt_set_none _)
          intro _
          exact pres_pure _
        · rw [if_neg hm]
          exact pres_pure _
      apply clauses_pres_cons
      · intro _
        exact pres_pure _
      exact clauses_pres_nil

theorem pres_stop_container (cid : String) :
    PreservesStore (stop_container cid) := by
  unfold stop_container
  apply pres_bind pres_check
  intro _
  apply pres_bind (pres_get_container _)
  intro copt
  cases copt with
  | none => exact pres_pure _
  | some c =>
    apply pres_tryExcept
    · apply pres_bind (pres_container_stop _)
      intro _
      exact pres_pure _
    · apply clauses_pres_cons
      · intro _
        exact pres_pure _
      exact clauses_pres_nil

theorem pres_remove_container (cid : String) :
    PreservesStore (remove_container cid) := by
  unfold remove_container
  apply pres_bind pres_check
  intro _
  apply pres_bind (pres_get_container _)
  intro copt
  cases copt with
  | none => exact pres_pure _
  | some c =>
    apply pres_tryExcept
    · apply pres_bind (pres_container_stop _)
      intro _
      apply pres_bind (pres_container_remove _)
      intro _
      exact pres_pure _
    · apply clauses_pres_cons
      · intro _
        exact pres_pure _
      exact clauses_pres_nil

theorem pres_cleanup_inactive_step (secs : Int) (key : String)
    (acc : List String) :
    PreservesStore (cleanup_inactive_step secs key acc) := by
  unfold cleanup_inactive_step
  apply pres_bind (pres_readKey _)
  intro data
  cases data with
  | none => exact pres_pure _
  | some state =>
    dsimp only
    by_cases h :
        optStrTruthy state.container_id = true ∧ state.running_task_count = 0
    · rw [if_pos h]
      apply pres_bind pres_getNow
      intro now
      by_cases h2 :
          now - state.last_task_completed_at.getD state.last_seen > secs
      · rw [if_pos h2]
        apply pres_tryExcept
        · apply pres_bind (pres_stop_container _)
          intro _
          apply pres_bind (pres_remove_container _)
          intro _
          exact pres_pure _
        · apply clauses_pres_cons
          · intro _
            exact pres_pure _
          exact clauses_pres_nil
      · rw [if_neg h2]
        exact pres_pure _
    · rw [if_neg h]
      exact pres_pure _

theorem pres_cleanup_inactive_loop (secs : Int) (keys : List String) :
    ∀ acc, PreservesStore (cleanup_inactive_loop secs acc keys) := by
  induction keys with
  | nil =>
    intro acc
    exact pres_pure _
  | cons key rest ih =>
    intro acc
    unfold cleanup_inactive_loop
    exact pres_bind (pres_cleanup_inactive_step _ _ _) ih

theorem pres_cleanup_inactive_containers (secs : Int) :
    PreservesStore (cleanup_inactive_containers secs) := by
  unfold cleanup_inactive_containers
  apply pres_bind pres_getW
  intro w
  exact pres_cleanup_inactive_loop _ _ _

/-! ## Claim theorems: the pure SessionStore operations -/

/-- C4: `register_task(id, name)` creates the session record if absent
with `running_task_count = 1` and `task_history = [name]`; if the record
exists it increments `running_task_count`, appends `name` to
`task_history` and updates `last_seen`; and it fails with the
invalid-argument error exactly when `id` is empty. -/
theorem register_task_spec (store : Store) (now : Int) (cid name : String)
    (hname : name ≠ "") :
    (cid = "" →
      register_task store now cid (some name) =
        .error "correlation_id cannot be empty") ∧
    (∀ st store2,
      register_task store now cid (some name) = .ok (st, store2) →
        cid ≠ "") ∧
    (cid ≠ "" → storeGet store (getKey cid) = none →
      register_task store now cid (some name) =
        .ok ({ correlation_id := cid, first_seen := now, last_seen := now,
               running_task_count := 1, task_history := [name] },
             storeSet store (getKey cid)
               { correlation_id := cid, first_seen := now, last_seen := now,
                 running_task_count := 1, task_history := [name] })) ∧
    (∀ st0, cid ≠ "" → storeGet store (getKey cid) = some st0 →
      register_task store now cid (some name) =
        .ok ({ st0 with
                 last_seen := now
                 running_task_count := st0.running_task_count + 1
                 task_history := st0.task_history ++ [name] },
             storeSet store (getKey cid)
               { st0 with
                   last_seen := now
                   running_task_count := st0.running_task_count + 1
                   task_history := st0.task_history ++ [name] })) := by
  refine ⟨?_, ?_, ?_, ?_⟩
  · intro h
    simp [register_task, h]
  · intro st store2 hok hceq
    simp [register_task, hceq] at hok
  · intro hcid hnone
    simp [register_task, hcid, hnone, optStrTruthy, hname]
  · intro st0 hcid hsome
    simp [register_task, hcid, hsome, optStrTruthy, hname]

/-- Witness for C4: registering a first task on an empty store. -/
theorem register_task_spec_witness :
    register_task [] 0 "s1" (some "build") =
      .ok ({ correlation_id := "s1", first_seen := 0, last_seen := 0,
             running_task_count := 1, task_history := ["build"] },
           storeSet [] (getKey "s1")
             { correlation_id := "s1", first_seen := 0, last_seen := 0,
               running_task_count := 1, task_history := ["build"] }) :=
  (register_task_spec [] 0 "s1" "build" (by decide)).2.2.1 (by decide) rfl

/-- C8: `finish_task(id)` returns `none` and changes nothing when no
record exists; when a record exists it decrements `running_task_count`
floored at 0 and stamps `last_seen` and `last_task_completed_at`. -/
theorem finish_task_spec (store : Store) (now : Int) (cid : String) :
    (storeGet store (getKey cid) = none →
      finish_task store now cid = (none, store)) ∧
    (∀ st0, cid ≠ "" → storeGet store (getKey cid) = some st0 →
      finish_task store now cid =
        (some { st0 with
            running_task_count := max 0 (st0.running_task_count - 1),
            last_seen := now, last_task_completed_at := some now },
         storeSet store (getKey cid)
           { st0 with
             running_task_count := max 0 (st0.running_task_count - 1),
             last_seen := now, last_task_completed_at := some now })) ∧
    (∀ st0, storeGet store (getKey cid) = some st0 →
      0 ≤ max 0 (st0.running_task_count - 1)) := by
  refine ⟨?_, ?_, ?_⟩
  · intro h
    by_cases hc : cid = "" <;> simp [finish_task, hc, h]
  · intro st0 hc hsome
    simp [finish_task, hc, hsome]
  · intro st0 _
    exact le_max_left 0 _

/-- Witness for C8: finishing one of two running tasks. -/
theorem finish_task_spec_witness :
    finish_task [(getKey "s1",
        { correlation_id := "s1", first_seen := 0, last_seen := 0,
          running_task_count := 2 })] 9 "s1" =
      (some { correlation_id := "s1", first_seen := 0, last_seen := 9,
              running_task_count := max 0 (2 - 1),
              last_task_completed_at := some 9 },
       storeSet [(getKey "s1",
          { correlation_id := "s1", first_seen := 0, last_seen := 0,
            running_task_count := 2 })] (getKey "s1")
         { correlation_id := "s1", first_seen := 0, last_seen := 9,
           running_task_count := max 0 (2 - 1),
           last_task_completed_at := some 9 }) :=
  (finish_task_spec [(getKey "s1",
      { correlation_id := "s1", first_seen := 0, last_seen := 0,
        running_task_count := 2 })] 9 "s1").2.1
    { correlation_id := "s1", first_seen := 0, last_seen := 0,
      running_task_count := 2 } (by decide) rfl

/-! ## C3: sequences of register/finish calls -/

/-- One dispatch-layer call against the tracker, for the interleaving
claim: a `register_task` (with its task name) or a `finish_task`. -/
inductive TEvent where
  | reg (name : Option String)
  | fin
  deriving Repr, DecidableEq

/-- Run a sequence of tracker calls on one correlation id. -/
def runEvents (cid : String) (now : Int) : List TEvent → Store → Store
  | [], s => s
  | .reg n :: evs, s =>
    runEvents cid now evs
      (match register_task s now cid n with
       | .ok (_, s2) => s2
       | .error _ => s)
  | .fin :: evs, s => runEvents cid now evs (finish_task s now cid).2

/-- The session's `running_task_count` (0 when the record is absent). -/
def countOf (s : Store) (cid : String) : Int :=
  match storeGet s (getKey cid) with
  | some st => st.running_task_count
  | none => 0

/-- Number of `register_task` calls in a sequence. -/
def nReg : List TEvent → Nat
  | [] => 0
  | .reg _ :: evs => nReg evs + 1
  | .fin :: evs => nReg evs

/-- Number of `finish_task` calls in a sequence. -/
def nFin : List TEvent → Nat
  | [] => 0
  | .reg _ :: evs => nFin evs
  | .fin :: evs => nFin evs + 1

theorem count_after_register (s : Store) (now : Int) (cid : String)
    (h : cid ≠ "") (nm : Option String) :
    countOf
      (match register_task s now cid nm with
       | .ok (_, s2) => s2
       | .error _ => s) cid = countOf s cid + 1 := by
  rcases hsg : alistGet s (getKey cid) with _ | st0 <;>
    simp [register_task, countOf, h, hsg, storeGet, storeSet,
      alistGet_set_self]

theorem count_after_finish (s : Store) (now : Int) (cid : String)
    (h : cid ≠ "") :
    countOf (finish_task s now cid).2 cid = max 0 (countOf s cid - 1) := by
  rcases hsg : alistGet s (getKey cid) with _ | st0 <;>
    simp [finish_task, countOf, h, hsg, storeGet, storeSet,
      alistGet_set_self]

theorem runEvents_count (cid : String) (h : cid ≠ "") (now : Int) :
    ∀ (evs : List TEvent) (s : Store) (R F : Nat),
      countOf s cid = (R : Int) - (F : Int) → F ≤ R →
      (∀ p, p <+: evs → F + nFin p ≤ R + nReg p) →
      countOf (runEvents cid now evs s) cid =
        ((R + nReg evs : Nat) : Int) - ((F + nFin evs : Nat) : Int) := by
  intro evs
  induction evs with
  | nil =>
    intro s R F hc hF hp
    simpa [runEvents, nReg, nFin] using hc
  | cons e evs ih =>
    intro s R F hc hF hp
    cases e with
    | reg nm =>
      rw [runEvents]
      have hc2 :
          countOf
            (match register_task s now cid nm with
             | .ok (_, s2) => s2
             | .error _ => s) cid = ((R + 1 : Nat) : Int) - (F : Int) := by
        rw [count_after_register s now cid h nm, hc]
        push_cast
        ring
      have hF2 : F ≤ R + 1 := Nat.le_succ_of_le hF
      have hp2 : ∀ p, p <+: evs → F + nFin p ≤ (R + 1) + nReg p := by
        intro p hpre
        have := hp (.reg nm :: p) (List.cons_prefix_cons.mpr ⟨rfl, hpre⟩)
        simp only [nFin, nReg] at this
        omega
      have := ih _ (R + 1) F hc2 hF2 hp2
      rw [this]
      simp only [nReg, nFin]
      push_cast
      ring
    | fin =>
      rw [runEvents]
      have hge : F + 1 ≤ R := by
        have := hp [.fin] ⟨evs, rfl⟩
        simpa [nFin, nReg] using this
      have hc2 :
          countOf (finish_task s now cid).2 cid =
            ((R : Nat) : Int) - ((F + 1 : Nat) : Int) := by
        rw [count_after_finish s now cid h, hc]
        have : ((R : Int) - F - 1) = (R : Int) - (F + 1 : Nat) := by
          push_cast
          ring
        rw [max_eq_right, this]
        have : ((F : Int) + 1) ≤ (R : Int) := by exact_mod_cast hge
        omega
      have hp2 : ∀ p, p <+: evs → (F + 1) + nFin p ≤ R + nReg p := by
        intro p hpre
        have := hp (.fin :: p) (List.cons_prefix_cons.mpr ⟨rfl, hpre⟩)
        simp only [nFin, nReg] at this
        omega
      have := ih _ R (F + 1) hc2 hge hp2
      rw [this]
      simp only [nReg, nFin]
      push_cast
      ring

/-- C3: over any sequence of interleaved `register_task`/`finish_task`
calls on one session id in which finishes never exceed registers (at
every prefix), the session's `running_task_count` stays nonnegative at
every point and equals the number of registers minus the number of
finishes. -/
theorem task_count_invariant (cid : String) (now : Int) (evs : List TEvent)
    (s : Store) (hcid : cid ≠ "")
    (hs : storeGet s (getKey cid) = none)
    (hbal : ∀ p, p <+: evs → nFin p ≤ nReg p) :
    ∀ p, p <+: evs →
      countOf (runEvents cid now p s) cid =
          (nReg p : Int) - (nFin p : Int) ∧
        0 ≤ countOf (runEvents cid now p s) cid := by
  intro p hp
  have h0 : countOf s cid = ((0 : Nat) : Int) - ((0 : Nat) : Int) := by
    simp [countOf, hs]
  have hpre : ∀ q, q <+: p → 0 + nFin q ≤ 0 + nReg q := by
    intro q hq
    simpa using hbal q (hq.trans hp)
  have hmain := runEvents_count cid hcid now p s 0 0 h0 (Nat.le_refl 0) hpre
  have heq : countOf (runEvents cid now p s) cid =
      (nReg p : Int) - (nFin p : Int) := by
    simpa using hmain
  refine ⟨heq, ?_⟩
  rw [heq]
  have := hbal p hp
  omega

/-- Witness for C3: one register on a fresh store. -/
theorem task_count_invariant_witness :
    countOf (runEvents "s1" 0 [TEvent.reg (some "t")] []) "s1" =
        (nReg [TEvent.reg (some "t")] : Int) -
          (nFin [TEvent.reg (some "t")] : Int) ∧
      0 ≤ countOf (runEvents "s1" 0 [TEvent.reg (some "t")] []) "s1" := by
  refine task_count_invariant "s1" 0 [TEvent.reg (some "t")] [] (by decide)
    rfl ?_ [TEvent.reg (some "t")] (List.prefix_refl _)
  intro q hq
  rcases hq with ⟨t, ht⟩
  cases q with
  | nil => decide
  | cons x xs =>
    cases xs with
    | nil =>
      simp only [List.cons_append, List.nil_append, List.cons.injEq] at ht
      rcases ht with ⟨hx, hts⟩
      subst hx
      decide
    | cons y ys =>
      simp only [List.cons_append, List.cons.injEq] at ht
      rcases ht with ⟨_, hts⟩
      exact absurd hts (by simp)

/-- C7: `sweep_inactive` (`cleanup_inactive_containers`) never touches
the session store: it deletes no Session record and clears no field
(`container_id`, `has_sandbox`, ...), so after a sweep every evicted
session's record still exists unchanged and still names the removed
container as its `container_id`. -/
theorem cleanup_inactive_frame (secs : Int) (w : World) :
    ((cleanup_inactive_containers secs w).2).store = w.store :=
  (pres_cleanup_inactive_containers secs w).1

/-! ## C9: the store never silently drops a container id -/

/-- Between two store snapshots: every record that had a set
`container_id` still exists and still has a set `container_id`. -/
def NoIdLoss (s s2 : Store) : Prop :=
  ∀ k st, storeGet s k = some st → st.container_id.isSome = true →
    ∃ st2, storeGet s2 k = some st2 ∧ st2.container_id.isSome = true

theorem noIdLoss_refl (s : Store) : NoIdLoss s s :=
  fun _ st hk hsome => ⟨st, hk, hsome⟩

theorem noIdLoss_set (store : Store) (key : String) (st' : TaskState)
    (hpres : ∀ st0, storeGet store key = some st0 →
      st0.container_id.isSome = true → st'.container_id.isSome = true) :
    NoIdLoss store (storeSet store key st') := by
  intro k stk hk hsome
  by_cases hkk : k = key
  · subst hkk
    exact ⟨st', alistGet_set_self store k st', hpres stk hk hsome⟩
  · refine ⟨stk, ?_, hsome⟩
    show alistGet (alistSet store key st') k = some stk
    rw [alistGet_set_ne store key k st' hkk]
    exact hk

theorem register_noIdLoss (store : Store) (now : Int) (cid : String)
    (nm : Option String) (st : TaskState) (s2 : Store)
    (hok : register_task store now cid nm = .ok (st, s2)) :
    NoIdLoss store s2 := by
  by_cases hcid : cid = ""
  · simp [register_task, hcid] at hok
  · rcases hsg : storeGet store (getKey cid) with _ | st0
    · have h2 : s2 = storeSet store (getKey cid)
          { correlation_id := cid, first_seen := now, last_seen := now,
            running_task_count := 1,
            task_history := if optStrTruthy nm then [nm.getD ""] else [] } := by
        have := hok
        simp [register_task, hcid, hsg] at this
        exact this.2.symm
      rw [h2]
      apply noIdLoss_set
      intro stk hk _
      rw [hsg] at hk
      cases hk
    · have h2 : s2 = storeSet store (getKey cid)
          { st0 with
              last_seen := now
              running_task_count := st0.running_task_count + 1
              task_history :=
                if optStrTruthy nm then st0.task_history ++ [nm.getD ""]
                else st0.task_history } := by
        have := hok
        simp [register_task, hcid, hsg] at this
        exact this.2.symm
      rw [h2]
      apply noIdLoss_set
      intro stk hk hsome
      rw [hsg] at hk
      cases hk
      exact hsome

theorem finish_noIdLoss (store : Store) (now : Int) (cid : String) :
    NoIdLoss store (finish_task store now cid).2 := by
  by_cases hcid : cid = ""
  · simp only [finish_task, if_pos hcid]
    exact noIdLoss_refl store
  · rcases hsg : storeGet store (getKey cid) with _ | st0 <;>
      simp only [finish_task, if_neg hcid, hsg]
    · exact noIdLoss_refl store
    · apply noIdLoss_set
      intro stk hk hsome
      rw [hsg] at hk
      cases hk
      exact hsome

theorem sandbox_noIdLoss (store : Store) (cid : String) (b : Bool) :
    NoIdLoss store (set_sandbox_state store cid b).2 := by
  by_cases hcid : cid = ""
  · simp only [set_sandbox_state, if_pos hcid]
    exact noIdLoss_refl store
  · rcases hsg : storeGet store (getKey cid) with _ | st0 <;>
      simp only [set_sandbox_state, if_neg hcid, hsg]
    · exact noIdLoss_refl store
    · apply noIdLoss_set
      intro stk hk hsome
      rw [hsg] at hk
      cases hk
      exact hsome

theorem set_cid_noIdLoss (store : Store) (now : Int) (cid : String)
    (c : Option String) : NoIdLoss store (set_container_id store now cid c).2 := by
  by_cases hg : cid = "" ∨ ¬ optStrTruthy c = true
  · simp only [set_container_id, if_pos hg]
    exact noIdLoss_refl store
  · rcases hsg : storeGet store (getKey cid) with _ | st0 <;>
      simp only [set_container_id, if_neg hg, hsg]
    · apply noIdLoss_set
      intro stk hk _
      rw [hsg] at hk
      cases hk
    · apply noIdLoss_set
      intro stk hk _
      push_neg at hg
      rcases c with _ | cs
      · simp [optStrTruthy] at hg
      · rfl

theorem alistDel_fst_sublist {β : Type} (l : List (String × β))
    (k : String) :
    ((alistDel l k).map Prod.fst).Sublist (l.map Prod.fst) := by
  induction l with
  | nil => simp [alistDel]
  | cons p rest ih =>
    obtain ⟨a, b⟩ := p
    by_cases h : a = k
    · simp only [alistDel, if_pos h, List.map_cons]
      exact List.Sublist.cons _ (List.Sublist.refl _)
    · simp only [alistDel, if_neg h, List.map_cons]
      exact List.Sublist.cons₂ _ ih

/-- One `cleanup_old_tasks` iteration either leaves the store alone or
deletes exactly the visited key. -/
theorem cleanup_old_step_store (hage : Int) (key : String) (w : World) :
    ((cleanup_old_step hage key w).2).store = w.store ∨
    ((cleanup_old_step hage key w).2).store = storeDel w.store key := by
  unfold cleanup_old_step
  rw [M_bind_run]
  dsimp only [readKey]
  rcases hsg : storeGet w.store key with _ | state
  · left
    rfl
  · dsimp only
    rw [M_bind_run]
    dsimp only [getNow]
    by_cases hcond : w.now - state.last_task_completed_at.getD state.last_seen
        > hage * 3600 ∧ state.running_task_count = 0
    · rw [if_pos hcond]
      by_cases ht : optStrTruthy state.container_id = true
      · rw [if_pos ht]
        have hm : PreservesStore
            (tryExcept
              (do
                let _ ← remove_container state.correlation_id
                pure ())
              [(DockerErr.isException, fun _ => pure ())]) := by
          apply pres_tryExcept
          · exact pres_bind (pres_remove_container _) (fun _ => pres_pure _)
          · apply clauses_pres_cons
            · intro _
              exact pres_pure _
            exact clauses_pres_nil
        rw [M_bind_run]
        rcases hmw : (tryExcept
            (do
              let _ ← remove_container state.correlation_id
              pure ())
            [(DockerErr.isException, fun _ => pure ())]) w with ⟨r, w₁⟩
        have hw1 := hm w
        rw [hmw] at hw1
        cases r with
        | ok a =>
          right
          show storeDel w₁.store key = storeDel w.store key
          rw [hw1.1]
        | error e =>
          left
          exact hw1.1
      · rw [if_neg ht]
        right
        rfl
    · rw [if_neg hcond]
      left
      rfl

theorem cleanup_old_loop_survivors (hage : Int) (keys : List String) :
    ∀ w : World, (w.store.map Prod.fst).Nodup →
      (∀ k st,
        storeGet ((cleanup_old_loop hage keys w).2).store k = some st →
          storeGet w.store k = some st) ∧
      (((cleanup_old_loop hage keys w).2).store.map Prod.fst).Nodup := by
  induction keys with
  | nil =>
    intro w hnd
    exact ⟨fun k st h => h, hnd⟩
  | cons key rest ih =>
    intro w hnd
    rcases hsw : cleanup_old_step hage key w with ⟨r, w₁⟩
    have hst : w₁.store = w.store ∨ w₁.store = storeDel w.store key := by
      have := cleanup_old_step_store hage key w
      rw [hsw] at this
      exact this
    have hsurv1 : ∀ k st, storeGet w₁.store k = some st →
        storeGet w.store k = some st := by
      intro k st h
      rcases hst with h1 | h1
      · rw [h1] at h
        exact h
      · rw [h1] at h
        have := alistGet_del w.store key k hnd
        rcases hkk : decide (k = key) with _ | _
        · have hne : ¬ k = key := of_decide_eq_false hkk
          rw [show storeGet (storeDel w.store key) k =
              alistGet (alistDel w.store key) k from rfl, this, if_neg hne] at h
          exact h
        · have heq : k = key := of_decide_eq_true hkk
          rw [show storeGet (storeDel w.store key) k =
              alistGet (alistDel w.store key) k from rfl, this, if_pos heq] at h
          cases h
    have hnd1 : (w₁.store.map Prod.fst).Nodup := by
      rcases hst with h1 | h1
      · rw [h1]
        exact hnd
      · rw [h1]
        exact hnd.sublist (alistDel_fst_sublist w.store key)
    cases r with
    | ok a =>
      have hihw := ih w₁ hnd1
      constructor
      · intro k st h
        rw [cleanup_old_loop, M_bind_run, hsw] at h
        exact hsurv1 k st (hihw.1 k st h)
      · rw [cleanup_old_loop, M_bind_run, hsw]
        exact hihw.2
    | error e =>
      constructor
      · intro k st h
        rw [cleanup_old_loop, M_bind_run, hsw] at h
        exact hsurv1 k st h
      · rw [cleanup_old_loop, M_bind_run, hsw]
        exact hnd1

/-- C9: `set_container_id` with a missing (`None`) or empty container id
returns `None` and leaves the store untouched; consequently no
SessionStore operation (`register_task`, `finish_task`,
`set_sandbox_state`, `set_container_id`) ever removes an existing
`container_id` from a surviving record, and `cleanup_old_tasks` only
ever deletes whole records - every surviving record is unchanged. -/
theorem set_container_id_guard_spec :
    (∀ (store : Store) (now : Int) (cid : String),
      set_container_id store now cid none = (none, store)) ∧
    (∀ (store : Store) (now : Int) (cid : String),
      set_container_id store now cid (some "") = (none, store)) ∧
    (∀ (store : Store) (now : Int) (cid : String) (nm : Option String)
        (st : TaskState) (s2 : Store),
      register_task store now cid nm = .ok (st, s2) → NoIdLoss store s2) ∧
    (∀ (store : Store) (now : Int) (cid : String),
      NoIdLoss store (finish_task store now cid).2) ∧
    (∀ (store : Store) (cid : String) (b : Bool),
      NoIdLoss store (set_sandbox_state store cid b).2) ∧
    (∀ (store : Store) (now : Int) (cid : String) (c : Option String),
      NoIdLoss store (set_container_id store now cid c).2) ∧
    (∀ (hage : Int) (w : World), (w.store.map Prod.fst).Nodup →
      ∀ k st, storeGet ((cleanup_old_tasks hage w).2).store k = some st →
        storeGet w.store k = some st) := by
  refine ⟨?_, ?_, register_noIdLoss, finish_noIdLoss, sandbox_noIdLoss,
    set_cid_noIdLoss, ?_⟩
  · intro store now cid
    exact set_container_id_falsy store now cid none rfl
  · intro store now cid
    exact set_container_id_falsy store now cid (some "") rfl
  · intro hage w hnd k st h
    have hrun : (cleanup_old_tasks hage w).2 =
        (cleanup_old_loop hage (scanKeys w.store) w).2 := by
      rw [cleanup_old_tasks, M_bind_run]
      rfl
    rw [hrun] at h
    exact (cleanup_old_loop_survivors hage (scanKeys w.store) w hnd).1 k st h

/-- Witness for C9: a `None` container id is rejected unchanged, and a
record with a container id survives `finish_task` with its id intact. -/
theorem set_container_id_guard_spec_witness :
    set_container_id [] 5 "s1" none = (none, []) ∧
    ∃ st2,
      storeGet (finish_task [(getKey "s1",
          { correlation_id := "s1", first_seen := 0, last_seen := 0,
            container_id := some "c1", container_created_at := some 0 })]
          7 "s1").2 (getKey "s1") = some st2 ∧
        st2.container_id.isSome = true :=
  ⟨set_container_id_guard_spec.1 [] 5 "s1",
   set_container_id_guard_spec.2.2.2.1 [(getKey "s1",
      { correlation_id := "s1", first_seen := 0, last_seen := 0,
        container_id := some "c1", container_created_at := some 0 })]
     7 "s1" (getKey "s1")
     { correlation_id := "s1", first_seen := 0, last_seen := 0,
       container_id := some "c1", container_created_at := some 0 }
     rfl rfl⟩

/-! ## C1: the `NotFound` path of `get_container` -/

/-- A world in which session `"s1"` stores container id `"c1"` but the
runtime no longer has that container (it vanished). -/
def staleWorld : World := {
  store := [(getKey "s1",
    { correlation_id := "s1", first_seen := 0, last_seen := 0,
      container_id := some "c1", container_created_at := some 0 })]
  docker := { containers := [], images := ["sandbox"], nextId := 0 }
  oracle := []
  now := 100
  dockerAvailable := true }

/-- C1 (behaviour the code actually has, contradicting both the spec and
the code's own comment "Clear the container ID from Redis since it
doesn't exist anymore"): when the stored `container_id` no longer
resolves (`NotFound`), `get_container` does return `none`, but the
attempted clear `set_container_id(correlation_id, None)` is a no-op
because of the falsy-argument guard in `set_container_id`, so the stale
`"c1"` is still recorded afterwards. -/
theorem get_container_stale_keeps_id :
    (get_container "s1" staleWorld).1 = .ok none ∧
    (storeGet ((get_container "s1" staleWorld).2).store (getKey "s1")).map
        (fun st => st.container_id) = some (some "c1") := by
  constructor <;> rfl

/-! ## C5: `ensure_container` is idempotent on a healthy session -/

theorem get_container_healthy (w : World) (cid c : String) (st : TaskState)
    (hav : w.dockerAvailable = true)
    (horc : w.oracle = [])
    (hcid : cid ≠ "")
    (hst : storeGet w.store (getKey cid) = some st)
    (hc : st.container_id = some c)
    (hcne : c ≠ "")
    (hrun : alistGet w.docker.containers c = some "running") :
    get_container cid w = (.ok (some ⟨c, "running"⟩), w) := by
  simp [get_container, check_docker_available, tt_get_container_id,
    get_container_id, get_state, tryExcept, containers_get, popOrc,
    optStrTruthy, hav, horc, hcid, hst, hc, hcne, hrun,
    M_bind_run, M_pure_run]

theorem ensure_container_healthy (w : World) (cid c : String)
    (st : TaskState)
    (hav : w.dockerAvailable = true)
    (horc : w.oracle = [])
    (hcid : cid ≠ "")
    (hst : storeGet w.store (getKey cid) = some st)
    (hc : st.container_id = some c)
    (hcne : c ≠ "")
    (hrun : alistGet w.docker.containers c = some "running") :
    ensure_container cid w = (.ok ⟨c, "running"⟩, w) := by
  simp [ensure_container, check_docker_available, hav,
    get_container_healthy w cid c st hav horc hcid hst hc hcne hrun,
    tryExcept, containers_get, popOrc, horc, hrun, M_bind_run, M_pure_run]

/-- C5: on a healthy session (record stores `c`, the runtime has `c`
running, no injected faults) `ensure_container` returns `c` and leaves
the whole world unchanged - so two calls in succession return the same
container id and neither creates nor persists anything. -/
theorem ensure_idempotent (w : World) (cid c : String) (st : TaskState)
    (hav : w.dockerAvailable = true)
    (horc : w.oracle = [])
    (hcid : cid ≠ "")
    (hst : storeGet w.store (getKey cid) = some st)
    (hc : st.container_id = some c)
    (hcne : c ≠ "")
    (hrun : alistGet w.docker.containers c = some "running") :
    ensure_container cid w = (.ok ⟨c, "running"⟩, w) ∧
    (do
      let c1 ← ensure_container cid
      let c2 ← ensure_container cid
      pure (c1.id, c2.id)) w = (.ok (c, c), w) := by
  have h1 := ensure_container_healthy w cid c st hav horc hcid hst hc hcne
    hrun
  refine ⟨h1, ?_⟩
  simp [M_bind_run, M_pure_run, h1]

/-- A healthy world for the C5 witness. -/
def healthyWorld : World := {
  store := [(getKey "s1",
    { correlation_id := "s1", first_seen := 0, last_seen := 0,
      container_id := some "c1", container_created_at := some 0 })]
  docker := { containers := [("c1", "running")], images := ["sandbox"],
              nextId := 0 }
  oracle := []
  now := 100
  dockerAvailable := true }

/-- Witness for C5. -/
theorem ensure_idempotent_witness :
    ensure_container "s1" healthyWorld = (.ok ⟨"c1", "running"⟩, healthyWorld) ∧
    (do
      let c1 ← ensure_container "s1"
      let c2 ← ensure_container "s1"
      pure (c1.id, c2.id)) healthyWorld = (.ok ("c1", "c1"), healthyWorld) :=
  ensure_idempotent healthyWorld "s1" "c1"
    { correlation_id := "s1", first_seen := 0, last_seen := 0,
      container_id := some "c1", container_created_at := some 0 }
    rfl rfl (by decide) rfl rfl (by decide) rfl

/-! ## C10 / C2: the exec error envelope and the success flag -/

/-- Shared helper: if the `try` body of `exec_command` fails with
anything that is not a `NotFound`, `exec_command` returns the structured
failure envelope built from the store state at failure time. -/
theorem exec_error_path (cid cmd : String) (w w₁ : World) (e : DockerErr)
    (hav : w.dockerAvailable = true)
    (hrun : exec_attempt cid cmd w = (.error e, w₁))
    (hnf : e.isNotFound = false) :
    exec_command cid cmd w =
      (.ok { exit_code := 1,
             output := "Error executing command: " ++ e.msg,
             container_id := get_container_id w₁.store cid,
             correlation_id := cid, command := cmd, success := false },
       w₁) := by
  simp [exec_command, check_docker_available, hav, M_bind_run,
    tryExcept, hrun, firstClause, hnf, DockerErr.isException,
    exec_error_envelope, tt_get_container_id, M_pure_run]

/-- Any `ExecResult` a computation can return has `success` equal to
`exit_code == 0`. -/
def EnvOK (m : M ExecResult) : Prop :=
  ∀ w r w', m w = (.ok r, w') → r.success = (r.exit_code == 0)

theorem envOK_pure (env : ExecResult)
    (henv : env.success = (env.exit_code == 0)) : EnvOK (pure env) := by
  intro w r w' h
  injection h with h1 h2
  injection h1 with h3
  subst h3
  exact henv

theorem envOK_bind {α : Type} (x : M α) (f : α → M ExecResult)
    (hf : ∀ a, EnvOK (f a)) : EnvOK (x >>= f) := by
  intro w r w' h
  rw [M_bind_run] at h
  rcases hxw : x w with ⟨rx, w₁⟩
  rw [hxw] at h
  cases rx with
  | ok a => exact hf a w₁ r w' h
  | error e => simp at h

theorem firstClause_mem {α : Type} (e : DockerErr)
    (hdl : DockerErr → M α) :
    ∀ clauses : List ((DockerErr → Bool) × (DockerErr → M α)),
      firstClause e clauses = some hdl →
      ∃ c ∈ clauses, hdl = fun x => c.2 x := by
  intro clauses
  induction clauses with
  | nil =>
    intro h
    cases h
  | cons c rest ih =>
    obtain ⟨p, hh⟩ := c
    intro h
    simp only [firstClause] at h
    by_cases hp : p e
    · rw [if_pos hp] at h
      injection h with h1
      exact ⟨(p, hh), List.mem_cons_self _ _, h1.symm⟩
    · rw [if_neg hp] at h
      obtain ⟨c, hcm, hc⟩ := ih h
      exact ⟨c, List.mem_cons_of_mem _ hcm, hc⟩

theorem envOK_tryExcept (body : M ExecResult)
    (clauses : List ((DockerErr → Bool) × (DockerErr → M ExecResult)))
    (hb : EnvOK body) (hc : ∀ c ∈ clauses, ∀ e, EnvOK (c.2 e)) :
    EnvOK (tryExcept body clauses) := by
  intro w r w' h
  unfold tryExcept at h
  rcases hbw : body w with ⟨rb, w₁⟩
  rw [hbw] at h
  cases rb with
  | ok a =>
    simp only [] at h
    injection h with h1 h2
    injection h1 with h3
    subst h3
    exact hb w a w₁ hbw
  | error e =>
    simp only [] at h
    rcases hfc : firstClause e clauses with _ | hdl
    · rw [hfc] at h
      simp at h
    · rw [hfc] at h
      obtain ⟨c, hcm, hceq⟩ := firstClause_mem e hdl clauses hfc
      rw [hceq] at h
      exact hc c hcm e w₁ r w' h

theorem envOK_exec_attempt (cid cmd : String) :
    EnvOK (exec_attempt cid cmd) := by
  unfold exec_attempt
  apply envOK_bind
  intro c1
  apply envOK_bind
  intro c2
  dsimp only
  by_cases hs : c2.status ≠ "running"
  · rw [if_pos hs]
    apply envOK_bind
    intro y
    apply envOK_bind
    intro result
    apply envOK_pure
    rfl
  · rw [if_neg hs]
    apply envOK_bind
    intro y
    apply envOK_bind
    intro result
    apply envOK_pure
    rfl

theorem envOK_exec_notfound (cid cmd : String) :
    EnvOK (exec_notfound_handler cid cmd) := by
  unfold exec_notfound_handler
  apply envOK_bind
  intro container_id
  apply envOK_bind
  intro container
  apply envOK_bind
  intro result
  apply envOK_pure
  rfl

theorem envOK_exec_error (cid cmd : String) (e : DockerErr) :
    EnvOK (exec_error_envelope cid cmd e) := by
  unfold exec_error_envelope
  apply envOK_bind
  intro stored
  apply envOK_pure
  show false = ((1 : Int) == 0)
  decide

theorem envOK_exec_command (cid cmd : String) :
    EnvOK (exec_command cid cmd) := by
  unfold exec_command
  apply envOK_bind
  intro u
  apply envOK_tryExcept
  · exact envOK_exec_attempt cid cmd
  · intro c hcm e
    rcases List.mem_cons.mp hcm with rfl | hm
    · exact envOK_exec_notfound cid cmd
    · rcases List.mem_cons.mp hm with rfl | hm2
      · exact envOK_exec_error cid cmd e
      · cases hm2

/-- C10: whenever the catch-all error path of `exec_command` is taken
(the attempt failed with anything that is not a `NotFound`), the
returned envelope has `exit_code = 1`, `success = false`, output
beginning with the descriptive error message, and `container_id` equal
to the currently stored container id for the session (possibly none),
even though no command was executed. -/
theorem exec_catch_all_envelope (cid cmd : String) (w w₁ : World)
    (e : DockerErr)
    (hav : w.dockerAvailable = true)
    (hrun : exec_attempt cid cmd w = (.error e, w₁))
    (hnf : e.isNotFound = false) :
    exec_command cid cmd w =
      (.ok { exit_code := 1,
             output := "Error executing command: " ++ e.msg,
             container_id := get_container_id w₁.store cid,
             correlation_id := cid, command := cmd, success := false },
       w₁) :=
  exec_error_path cid cmd w w₁ e hav hrun hnf

/-- A world whose runtime fails container creation with a generic error:
the first oracle entry serves the image lookup, the second makes
`containers.run` raise. -/
def errWorld : World := {
  store := []
  docker := { containers := [], images := ["sandbox"], nextId := 0 }
  oracle := [.ok, .raiseErr "boom"]
  now := 0
  dockerAvailable := true }

/-- Witness for C10. -/
theorem exec_catch_all_envelope_witness :
    exec_command "s1" "pwd" errWorld =
      (.ok { exit_code := 1, output := "Error executing command: boom",
             container_id := none, correlation_id := "s1",
             command := "pwd", success := false },
       { errWorld with oracle := [] }) :=
  exec_catch_all_envelope "s1" "pwd" errWorld { errWorld with oracle := [] }
    (.other "boom") rfl rfl rfl

/-! ## C2: exec semantics (corrected) -/

theorem freshContainerId_ne_empty (n : Nat) : freshContainerId n ≠ "" := by
  intro h
  have := congrArg String.length h
  simp [freshContainerId, String.length_append] at this
  exact absurd this.1 (by decide)

theorem optStrTruthy_fresh (n : Nat) :
    optStrTruthy (some (freshContainerId n)) = true := by
  simp [optStrTruthy, freshContainerId_ne_empty]

/-- The world of the C2 counterexample: a healthy session whose
container vanishes at execution time (4th call), after which the
recreation attempt fails with a generic runtime error (7th call). -/
def cexWorld : World := {
  store := [(getKey "s1",
    { correlation_id := "s1", first_seen := 0, last_seen := 0,
      container_id := some "c1", container_created_at := some 0 })]
  docker := { containers := [("c1", "running")], images := ["sandbox"],
              nextId := 0 }
  oracle := [.ok, .ok, .ok, .vanish, .ok, .ok, .raiseErr "boom"]
  now := 0
  dockerAvailable := true }

/-- C2 as stated is false: with a non-empty session id, when the
container vanishes at execution time and the single recreation attempt
then fails, `exec_command` raises the runtime error instead of
converting it into a `success = false` envelope - the catch-all only
protects the first attempt, not the recreate-and-retry path. -/
theorem exec_command_raises_counterexample :
    (exec_command "s1" "pwd" cexWorld).1 = .error (.other "boom") := by
  rfl

/-- C2 amended: `exec_command` returns envelopes whose `success` equals
`exit_code == 0`; when the runtime reports the container missing at
execution time the container is recreated once and the command retried
exactly once (the envelope reflects the retry, the store points at the
new container, the runtime holds exactly the one recreated container,
and the oracle shows exactly one creation and two execution attempts);
and a non-`NotFound` failure of the initial attempt is converted into a
`success = false`, `exit_code = 1` envelope.  However, failures during
the recreate-and-retry path propagate as raised errors (see the
counterexample), and `exec_command` itself performs no session-id
validation - the empty-id `ValueError` lives in the dispatch wrapper. -/
theorem exec_command_amended :
    (∀ (cid cmd : String) (w : World) (r : ExecResult) (w' : World),
      exec_command cid cmd w = (.ok r, w') →
        r.success = (r.exit_code == 0)) ∧
    (∀ (cid c cmd : String) (st : TaskState) (imgs : List String)
        (n : Nat) (now : Int) (code : Int) (out : Option String),
      cid ≠ "" → c ≠ "" → st.container_id = some c →
      imgs.contains "sandbox" = true →
      exec_command cid cmd {
        store := [(getKey cid, st)]
        docker := { containers := [(c, "running")], images := imgs,
                    nextId := n }
        oracle := [.ok, .ok, .ok, .vanish, .ok, .ok, .ok, .ok,
                   .execRes code out]
        now := now
        dockerAvailable := true } =
      (.ok { exit_code := code, output := decodeOutput out,
             container_id := some (freshContainerId n),
             correlation_id := cid, command := cmd,
             success := code == 0 },
       { store := [(getKey cid,
           { st with
               container_id := some (freshContainerId n)
               container_created_at := some now })]
         docker := { containers := [(freshContainerId n, "running")],
                     images := imgs, nextId := n + 1 }
         oracle := []
         now := now
         dockerAvailable := true })) ∧
    (∀ (cid cmd : String) (w w₁ : World) (e : DockerErr),
      w.dockerAvailable = true →
      exec_attempt cid cmd w = (.error e, w₁) →
      e.isNotFound = false →
      ∃ r w₂, exec_command cid cmd w = (.ok r, w₂) ∧
        r.success = false ∧ r.exit_code = 1) := by
  refine ⟨?_, ?_, ?_⟩
  · intro cid cmd w r w' h
    exact envOK_exec_command cid cmd w r w' h
  · intro cid c cmd st imgs n now code out hcid hc hstc himg
    have himg2 : "sandbox" ∈ imgs := by simpa using himg
    simp [exec_command, exec_attempt, exec_notfound_handler,
      ensure_container, get_container, create_container, build_image,
      check_docker_available, tt_get_container_id, tt_set_container_id,
      get_container_id, get_state, set_container_id,
      storeGet, storeSet, alistGet, alistSet, alistDel,
      containers_get, container_start, container_exec_run, containers_run,
      images_get, popOrc, dropContainer, throwD, image_tag,
      tryExcept, firstClause,
      DockerErr.isNotFound, DockerErr.isImageNotFound,
      DockerErr.isAPIError, DockerErr.isException,
      optStrTruthy, optStrTruthy_fresh, freshContainerId_ne_empty,
      hcid, hc, hstc, himg, himg2, M_bind_run, M_pure_run, getKey]
  · intro cid cmd w w₁ e hav hrun hnf
    exact ⟨_, w₁, exec_error_path cid cmd w w₁ e hav hrun hnf, rfl, rfl⟩

/-- Witness for the amended C2: a healthy session whose container
vanishes at execution time; the container is recreated once and the
retried command succeeds. -/
theorem exec_command_amended_witness :
    exec_command "s1" "pwd" {
      store := [(getKey "s1",
        { correlation_id := "s1", first_seen := 0, last_seen := 0,
          container_id := some "c1", container_created_at := some 0 })]
      docker := { containers := [("c1", "running")], images := ["sandbox"],
                  nextId := 0 }
      oracle := [.ok, .ok, .ok, .vanish, .ok, .ok, .ok, .ok,
                 .execRes 0 (some "hi")]
      now := 5
      dockerAvailable := true } =
    (.ok { exit_code := 0, output := decodeOutput (some "hi"),
           container_id := some (freshContainerId 0),
           correlation_id := "s1", command := "pwd",
           success := ((0 : Int) == 0) },
     { store := [(getKey "s1",
         { correlation_id := "s1", first_seen := 0, last_seen := 0,
           container_id := some (freshContainerId 0),
           container_created_at := some 5 })]
       docker := { containers := [(freshContainerId 0, "running")],
                   images := ["sandbox"], nextId := 1 }
       oracle := []
       now := 5
       dockerAvailable := true }) :=
  exec_command_amended.2.1 "s1" "c1" "pwd"
    { correlation_id := "s1", first_seen := 0, last_seen := 0,
      container_id := some "c1", container_created_at := some 0 }
    ["sandbox"] 0 5 0 (some "hi") (by decide) (by decide) rfl (by decide)

/-! ## C6: what the sweep may evict -/

theorem M_bind_ok {α β : Type} {x : M α} {f : α → M β} {w : World}
    {r : β} {w' : World} (h : (x >>= f) w = (.ok r, w')) :
    ∃ a w₁, x w = (.ok a, w₁) ∧ f a w₁ = (.ok r, w') := by
  rw [M_bind_run] at h
  rcases hxw : x w with ⟨rx, w₁⟩
  rw [hxw] at h
  cases rx with
  | ok a => exact ⟨a, w₁, rfl, h⟩
  | error e => simp at h

theorem cleanup_inactive_step_sound (secs : Int) (key : String)
    (acc : List String) (w : World) (lst : List String) (w' : World)
    (h : cleanup_inactive_step secs key acc w = (.ok lst, w')) :
    ∀ cid, cid ∈ lst → cid ∈ acc ∨
      ∃ st, storeGet w.store key = some st ∧ st.correlation_id = cid ∧
        optStrTruthy st.container_id = true ∧ st.running_task_count = 0 ∧
        w.now - (st.last_task_completed_at.getD st.last_seen) > secs := by
  intro cid hcid
  unfold cleanup_inactive_step at h
  rw [M_bind_run] at h
  dsimp only [readKey] at h
  rcases hsg : storeGet w.store key with _ | state
  · rw [hsg] at h
    injection h with h1 h2
    injection h1 with h3
    subst h3
    exact .inl hcid
  · rw [hsg] at h
    dsimp only at h
    by_cases hcond1 :
        optStrTruthy state.container_id = true ∧
          state.running_task_count = 0
    · rw [if_pos hcond1] at h
      rw [M_bind_run] at h
      dsimp only [getNow] at h
      by_cases hcond2 :
          w.now - state.last_task_completed_at.getD state.last_seen > secs
      · rw [if_pos hcond2] at h
        unfold tryExcept at h
        rcases hbw : (do
            let _ ← stop_container state.correlation_id
            let _ ← remove_container state.correlation_id
            pure (acc ++ [state.correlation_id]) : M (List String)) w
          with ⟨rb, w₁⟩
        rw [hbw] at h
        cases rb with
        | ok a =>
          have ha : a = acc ++ [state.correlation_id] := by
            obtain ⟨b1, w1, _, h2⟩ := M_bind_ok hbw
            obtain ⟨b2, w2, _, h3⟩ := M_bind_ok h2
            injection h3 with h4 h5
            injection h4 with h6
            exact h6.symm
          dsimp only at h
          injection h with h1 h2
          injection h1 with h3
          subst h3
          rw [ha] at hcid
          rcases List.mem_append.mp hcid with hin | hone
          · exact .inl hin
          · have : cid = state.correlation_id := by simpa using hone
            subst this
            exact .inr ⟨state, rfl, rfl, hcond1.1, hcond1.2, hcond2⟩
        | error e =>
          dsimp only [firstClause, DockerErr.isException] at h
          rw [if_pos rfl] at h
          injection h with h1 h2
          injection h1 with h3
          subst h3
          exact .inl hcid
      · rw [if_neg hcond2] at h
        injection h with h1 h2
        injection h1 with h3
        subst h3
        exact .inl hcid
    · rw [if_neg hcond1] at h
      injection h with h1 h2
      injection h1 with h3
      subst h3
      exact .inl hcid

theorem cleanup_inactive_loop_sound (secs : Int) (keys : List String) :
    ∀ (acc : List String) (w : World) (lst : List String) (w' : World),
      cleanup_inactive_loop secs acc keys w = (.ok lst, w') →
      ∀ cid, cid ∈ lst → cid ∈ acc ∨
        ∃ k st, storeGet w.store k = some st ∧ st.correlation_id = cid ∧
          optStrTruthy st.container_id = true ∧
          st.running_task_count = 0 ∧
          w.now - (st.last_task_completed_at.getD st.last_seen) > secs := by
  induction keys with
  | nil =>
    intro acc w lst w' h cid hcid
    injection h with h1 h2
    injection h1 with h3
    subst h3
    exact .inl hcid
  | cons key rest ih =>
    intro acc w lst w' h cid hcid
    rw [cleanup_inactive_loop] at h
    obtain ⟨acc1, w₁, hstep, hrest⟩ := M_bind_ok h
    have hpres := pres_cleanup_inactive_step secs key acc w
    rw [hstep] at hpres
    have hih := ih acc1 w₁ lst w' hrest cid hcid
    rcases hih with hin | ⟨k, st, hk, hcorr, ha, hb, hc3⟩
    · have hone := cleanup_inactive_step_sound secs key acc w acc1 w₁
        hstep cid hin
      rcases hone with hin2 | ⟨st, hk, hcorr, h1, h2, h3⟩
      · exact .inl hin2
      · exact .inr ⟨key, st, hk, hcorr, h1, h2, h3⟩
    · right
      rw [hpres.1] at hk
      rw [hpres.2] at hc3
      exact ⟨k, st, hk, hcorr, ha, hb, hc3⟩

/-- C6: every session id returned as evicted by the sweep had (at scan
time) a set `container_id`, `running_task_count = 0`, and idle time
(now minus `last_task_completed_at`, falling back to `last_seen`)
exceeding the threshold; in particular a session with a positive
`running_task_count` is never evicted. -/
theorem sweep_evicted_conditions (secs : Int) (w : World)
    (lst : List String) (w' : World)
    (h : cleanup_inactive_containers secs w = (.ok lst, w')) :
    ∀ cid, cid ∈ lst →
      ∃ k st, storeGet w.store k = some st ∧ st.correlation_id = cid ∧
        st.container_id.isSome = true ∧ st.running_task_count = 0 ∧
        w.now - (st.last_task_completed_at.getD st.last_seen) > secs := by
  intro cid hcid
  have hrun : cleanup_inactive_loop secs [] (scanKeys w.store) w =
      (.ok lst, w') := by
    rw [cleanup_inactive_containers, M_bind_run] at h
    dsimp only [getW] at h
    exact h
  have hloop := cleanup_inactive_loop_sound secs (scanKeys w.store) [] w
    lst w' hrun cid hcid
  rcases hloop with hin | ⟨k, st, hk, hcorr, ht, hz, hidle⟩
  · cases hin
  · refine ⟨k, st, hk, hcorr, ?_, hz, hidle⟩
    rcases hci : st.container_id with _ | s
    · rw [hci] at ht
      simp [optStrTruthy] at ht
    · rfl

/-- A world with one idle session for the C6 witness. -/
def sweepWorld : World := {
  store := [(getKey "s1",
    { correlation_id := "s1", first_seen := 0, last_seen := 0,
      running_task_count := 0, container_id := some "c1",
      container_created_at := some 0 })]
  docker := { containers := [("c1", "running")], images := ["sandbox"],
              nextId := 0 }
  oracle := []
  now := 100000
  dockerAvailable := true }

/-- Witness for C6: the sweep evicts the idle session and the record it
acted on satisfies all three conditions. -/
theorem sweep_evicted_conditions_witness :
    ∃ k st, storeGet sweepWorld.store k = some st ∧
      st.correlation_id = "s1" ∧ st.container_id.isSome = true ∧
      st.running_task_count = 0 ∧
      sweepWorld.now - (st.last_task_completed_at.getD st.last_seen)
        > 3600 :=
  sweep_evicted_conditions 3600 sweepWorld ["s1"]
    { store := sweepWorld.store
      docker := { containers := [], images := ["sandbox"], nextId := 0 }
      oracle := []
      now := 100000
      dockerAvailable := true }
    (by rfl) "s1" (by decide)
